import Mathlib

/-!
Verification development for the webcam attention tracker (main.py).

The event-decision core of the program is embedded shallowly:

* `md5` is a full executable model of the 128-bit digest used by the
  identity resolver (`hashlib.md5`), validated below against its standard
  digests.
* `get_face_id` embeds the identity resolver: landmark coordinates are
  serialized with `int.to_bytes` over two big-endian signed bytes (which
  raises `OverflowError` outside the signed 16-bit range, modelled with
  `Except`) and digested.
* `log_and_alert` embeds the throttle-and-dispatch routine: the stored
  map `st.session_state.last_alert_time` is keyed by the event string,
  a missing key defaults to `0`, and on admission the routine issues a
  warning, logs, notifies, appends a ledger row to
  `st.session_state.logs`, and finally stores the timestamp.  The three
  collaborator calls are external; each is given a boolean parameter
  telling whether the call returns normally or raises, so that the
  exception-propagation order of the Python statement sequence is
  captured (a raise skips every later statement of the body).
* `frameStep` / `monitorRun` embed one iteration and the whole
  `while cap.isOpened()` loop of `monitor_stream`, recording which
  collaborator calls each path makes, whether the iteration reached the
  stop-signal check, and whether the capture handle is released on exit.

Wall-clock instants (`time.time()` values) are modelled as exact integer
seconds; every comparison made by the program is an order comparison, so
nothing in the embedded logic depends on sub-second fractions.
-/

/-! ### MD5 digest (model of `hashlib.md5`) -/

/-- Modulus for 32-bit machine words. -/
def w32mod : Nat := 4294967296

/-- Addition modulo 2^32. -/
def wadd (a b : Nat) : Nat := (a + b) % w32mod

/-- Bitwise complement of a 32-bit word. -/
def wnot (a : Nat) : Nat := a ^^^ 4294967295

/-- Left-rotation of a 32-bit word by `s` bits. -/
def rotl (x s : Nat) : Nat := ((x <<< s) ||| (x >>> (32 - s))) % w32mod

/-- Per-round additive constants of MD5. -/
def mdK : List Nat :=
  [0xd76aa478, 0xe8c7b756, 0x242070db, 0xc1bdceee,
   0xf57c0faf, 0x4787c62a, 0xa8304613, 0xfd469501,
   0x698098d8, 0x8b44f7af, 0xffff5bb1, 0x895cd7be,
   0x6b901122, 0xfd987193, 0xa679438e, 0x49b40821,
   0xf61e2562, 0xc040b340, 0x265e5a51, 0xe9b6c7aa,
   0xd62f105d, 0x02441453, 0xd8a1e681, 0xe7d3fbc8,
   0x21e1cde6, 0xc33707d6, 0xf4d50d87, 0x455a14ed,
   0xa9e3e905, 0xfcefa3f8, 0x676f02d9, 0x8d2a4c8a,
   0xfffa3942, 0x8771f681, 0x6d9d6122, 0xfde5380c,
   0xa4beea44, 0x4bdecfa9, 0xf6bb4b60, 0xbebfbc70,
   0x289b7ec6, 0xeaa127fa, 0xd4ef3085, 0x04881d05,
   0xd9d4d039, 0xe6db99e5, 0x1fa27cf8, 0xc4ac5665,
   0xf4292244, 0x432aff97, 0xab9423a7, 0xfc93a039,
   0x655b59c3, 0x8f0ccc92, 0xffeff47d, 0x85845dd1,
   0x6fa87e4f, 0xfe2ce6e0, 0xa3014314, 0x4e0811a1,
   0xf7537e82, 0xbd3af235, 0x2ad7d2bb, 0xeb86d391]

/-- Per-round rotation amounts of MD5. -/
def mdS : List Nat :=
  [7, 12, 17, 22, 7, 12, 17, 22, 7, 12, 17, 22, 7, 12, 17, 22,
   5, 9, 14, 20, 5, 9, 14, 20, 5, 9, 14, 20, 5, 9, 14, 20,
   4, 11, 16, 23, 4, 11, 16, 23, 4, 11, 16, 23, 4, 11, 16, 23,
   6, 10, 15, 21, 6, 10, 15, 21, 6, 10, 15, 21, 6, 10, 15, 21]

/-- Mixing function of round `i`. -/
def md5F (i b c d : Nat) : Nat :=
  if i < 16 then (b &&& c) ||| (wnot b &&& d)
  else if i < 32 then (d &&& b) ||| (wnot d &&& c)
  else if i < 48 then b ^^^ c ^^^ d
  else c ^^^ (b ||| wnot d)

/-- Message-word index used in round `i`. -/
def md5g (i : Nat) : Nat :=
  if i < 16 then i
  else if i < 32 then (5 * i + 1) % 16
  else if i < 48 then (3 * i + 5) % 16
  else (7 * i) % 16

/-- One MD5 round over a 16-word message block. -/
def md5Round (M : List Nat) (st : Nat × Nat × Nat × Nat) (i : Nat) :
    Nat × Nat × Nat × Nat :=
  let f := (md5F i st.2.1 st.2.2.1 st.2.2.2 + st.1 + mdK.getD i 0
            + M.getD (md5g i) 0) % w32mod
  (st.2.2.2, wadd st.2.1 (rotl f (mdS.getD i 0)), st.2.1, st.2.2.1)

/-- Process one 512-bit block. -/
def md5Block (st : Nat × Nat × Nat × Nat) (M : List Nat) : Nat × Nat × Nat × Nat :=
  let r := (List.range 64).foldl (md5Round M) st
  (wadd st.1 r.1, wadd st.2.1 r.2.1, wadd st.2.2.1 r.2.2.1, wadd st.2.2.2 r.2.2.2)

/-- Group little-endian bytes into 32-bit words. -/
def bytesToWordsLE : List Nat → List Nat
  | b0 :: b1 :: b2 :: b3 :: rest =>
      (b0 + 256 * b1 + 65536 * b2 + 16777216 * b3) :: bytesToWordsLE rest
  | _ => []

/-- Split a byte list into 64-byte chunks (fuel-driven so that it reduces). -/
def chunksAux : Nat → List Nat → List (List Nat)
  | 0, _ => []
  | _, [] => []
  | fuel + 1, l => l.take 64 :: chunksAux fuel (l.drop 64)

/-- Split a byte list into 64-byte chunks. -/
def chunks64 (l : List Nat) : List (List Nat) :=
  chunksAux l.length l

/-- MD5 padding: a `0x80` byte, zeros to 56 mod 64, then the bit length
little-endian in 8 bytes. -/
def md5Pad (msg : List Nat) : List Nat :=
  let bitLen := 8 * msg.length
  let k := (56 - (msg.length + 1) % 64 + 64) % 64
  msg ++ [128] ++ List.replicate k 0 ++
    ((List.range 8).map (fun i => (bitLen >>> (8 * i)) % 256))

/-- The MD5 digest of a byte sequence, as four 32-bit words. -/
def md5 (msg : List Nat) : Nat × Nat × Nat × Nat :=
  (chunks64 (md5Pad msg)).foldl (fun st blk => md5Block st (bytesToWordsLE blk))
    (0x67452301, 0xefcdab89, 0x98badcfe, 0x10325476)

/-- Serialize a 32-bit word as four little-endian bytes. -/
def wordBytesLE (w : Nat) : List Nat :=
  [w % 256, (w >>> 8) % 256, (w >>> 16) % 256, (w >>> 24) % 256]

/-- The sixteen digest bytes. -/
def digestBytes (d : Nat × Nat × Nat × Nat) : List Nat :=
  wordBytesLE d.1 ++ wordBytesLE d.2.1 ++ wordBytesLE d.2.2.1 ++ wordBytesLE d.2.2.2

/-- Lower-case hexadecimal digit. -/
def hexChar (n : Nat) : Char :=
  if n < 10 then Char.ofNat (48 + n) else Char.ofNat (87 + n)

/-- Two hexadecimal digits of one byte. -/
def byteHex (b : Nat) : List Char :=
  [hexChar (b / 16), hexChar (b % 16)]

/-- Model of `hashlib.md5(data).hexdigest()`: the 32-character
hexadecimal rendering of the 128-bit digest. -/
def md5hex (msg : List Nat) : String :=
  String.mk ((digestBytes (md5 msg)).flatMap byteHex)

/-! ### Identity resolver (`get_face_id`, main.py lines 34-40) -/

/-- Error raised by a Python collaborator call. -/
inductive PyError where
  | overflow
  deriving DecidableEq, Repr

/-- Model of `num.to_bytes` with width 2, big-endian, signed: two
big-endian twos-complement bytes, raising `OverflowError` outside the
signed 16-bit range. -/
def int_to_bytes2 (n : Int) : Except PyError (List Nat) :=
  if -32768 ≤ n ∧ n < 32768 then
    Except.ok [(n % 65536).toNat / 256, (n % 65536).toNat % 256]
  else Except.error PyError.overflow

/-- Model of `get_face_id(shape)`: flatten the (x, y) landmark pairs in
order, serialize each coordinate with `int_to_bytes2` into one growing
byte buffer, and return the hexadecimal MD5 digest.  There is no length
check of any kind in the source. -/
def get_face_id (shape : List (Int × Int)) : Except PyError String := do
  let flat := shape.flatMap (fun p => [p.1, p.2])
  let data ← flat.foldlM (fun acc num => do
      let b ← int_to_bytes2 num
      pure (acc ++ b)) []
  pure (md5hex data)

/-- Coordinate pair fits the signed 16-bit range demanded by
`int.to_bytes(2, signed=True)`. -/
def inCoordRange (p : Int × Int) : Prop :=
  -32768 ≤ p.1 ∧ p.1 < 32768 ∧ -32768 ≤ p.2 ∧ p.2 < 32768

instance (p : Int × Int) : Decidable (inCoordRange p) := by
  unfold inCoordRange; infer_instance

/-- Serialization as worded by the spec: each coordinate as a
fixed-width 16-bit signed big-endian value, concatenated in landmark
order.  Stated independently of `get_face_id` and compared with it. -/
def serializeSpec (shape : List (Int × Int)) : List Nat :=
  shape.flatMap (fun p =>
    [(p.1 % 65536).toNat / 256, (p.1 % 65536).toNat % 256,
     (p.2 % 65536).toNat / 256, (p.2 % 65536).toNat % 256])

/-! ### Session state, throttle and dispatch (`log_and_alert`, lines 43-56) -/

/-- One row of `st.session_state.logs` (the session ledger shown on the
dashboard). -/
structure LedgerEntry where
  faceId : String
  event : String
  time : Int
  deriving DecidableEq, Repr

/-- A call made to an external collaborator. -/
inductive Call where
  | issueWarning (event : String)
  | logEvent (faceId event : String)
  | notifyTutor (faceId : String)
  deriving DecidableEq, Repr

/-- Modelled from the spec: the `AbsenceTimer` of `utils/time_tracker`
(absent from `src/`), per section 4.2: a record of whether the subject
is currently absent and since when. -/
structure AbsenceState where
  is_absent : Bool
  absent_since : Option Int
  deriving DecidableEq, Repr

/-- Modelled from the spec: `AbsenceTimer.update` transitions only on
presence edges — entering absence records the instant, staying absent
keeps it, any detected face clears it. -/
def absUpdate (a : AbsenceState) (absent : Bool) (now : Int) : AbsenceState :=
  if absent then
    if a.is_absent then a else { is_absent := true, absent_since := some now }
  else { is_absent := false, absent_since := none }

/-- Modelled from the spec: the configured absence threshold (a
configuration constant of `config.py`, absent from `src/`; the worked
example of the spec uses 2 seconds). -/
def ABSENCE_LIMIT : Int := 2

/-- Modelled from the spec: `AbsenceTimer.exceeded_limit()` — a level
query, true while the state is absent and the threshold has elapsed. -/
def absExceeded (a : AbsenceState) (now : Int) : Bool :=
  a.is_absent &&
    match a.absent_since with
    | some t => decide (ABSENCE_LIMIT ≤ now - t)
    | none => false

/-- The mutable session state of main.py: the throttle map
`st.session_state.last_alert_time` (an association of event string to
stored timestamp — the key is ONLY the event string), the ledger
`st.session_state.logs`, and the absence timer.  The `WarningManager`
of `alerts/message_queue` (absent from `src/`) is treated as an external
sink: its invocation is recorded as a `Call`, as the spec specifies no
state for it. -/
structure AppState where
  last_alert_time : List (String × Int)
  logs : List LedgerEntry
  absence : AbsenceState
  deriving DecidableEq, Repr

/-- Model of Python `dict` lookup returning `None` when absent. -/
def lookupTime : List (String × Int) → String → Option Int
  | [], _ => none
  | (k, v) :: rest, key => if k = key then some v else lookupTime rest key

/-- Model of Python `dict` assignment `d[key] = v`. -/
def setTime : List (String × Int) → String → Int → List (String × Int)
  | [], key, v => [(key, v)]
  | (k, w) :: rest, key, v =>
      if k = key then (k, v) :: rest else (k, w) :: setTime rest key v

/-- The cooldown window `ALERT_INTERVAL = 10  # seconds` of main.py. -/
def ALERT_INTERVAL : Int := 10

/-- Result of one `log_and_alert` invocation. -/
structure DispatchResult where
  state : AppState
  admitted : Bool
  calls : List Call
  raised : Bool
  deriving DecidableEq, Repr

/-- Model of `log_and_alert(face_id, event)` (lines 43-56) with `now`
standing for `time.time()`.  The stored timestamp is fetched with
`last_alert_time.get(event, 0)` — keyed by the event alone, defaulting
to `0`.  On admission the body runs, in source order:
`warn_manager.issue_warning`, `log_event`, `notify_tutor`, the ledger
append, and only then the timestamp store.  Each of the three external
calls takes a flag telling whether it returns normally (`true`) or
raises (`false`); a raise propagates and skips the remaining
statements, exactly as in Python. -/
def log_and_alert (warnOk logOk notifyOk : Bool) (face_id event : String)
    (now : Int) (s : AppState) : DispatchResult :=
  let last := (lookupTime s.last_alert_time event).getD 0
  if ALERT_INTERVAL ≤ now - last then
    if warnOk = false then
      { state := s, admitted := true,
        calls := [Call.issueWarning event], raised := true }
    else if logOk = false then
      { state := s, admitted := true,
        calls := [Call.issueWarning event, Call.logEvent face_id event],
        raised := true }
    else if notifyOk = false then
      { state := s, admitted := true,
        calls := [Call.issueWarning event, Call.logEvent face_id event,
                  Call.notifyTutor face_id],
        raised := true }
    else
      { state :=
          { s with
            logs := s.logs ++ [{ faceId := face_id, event := event, time := now }],
            last_alert_time := setTime s.last_alert_time event now },
        admitted := true,
        calls := [Call.issueWarning event, Call.logEvent face_id event,
                  Call.notifyTutor face_id],
        raised := false }
  else
    { state := s, admitted := false, calls := [], raised := false }

/-- `log_and_alert` on the ordinary path where no collaborator raises. -/
def laPure (face_id event : String) (now : Int) (s : AppState) : DispatchResult :=
  log_and_alert true true true face_id event now s

/-! ### Frame loop (`monitor_stream`, lines 59-121) -/

/-- One detected face of one frame: its resolved id together with the
verdicts of the five external classifiers. -/
structure Face where
  faceId : String
  drowsy : Bool
  blinking : Bool
  lookingAway : Bool
  headDown : Bool
  talking : Bool
  deriving DecidableEq, Repr

/-- The inputs one loop iteration reads from the outside world:
`camOk` is `ret and is_camera_on(cap)`, `faces` the detector output
with classifier verdicts attached, `now` the clock, and `stop` the
value of `st.session_state["stop"]` at this iteration. -/
structure FrameData where
  camOk : Bool
  faces : List Face
  now : Int
  stop : Bool
  deriving DecidableEq, Repr

/-- Per-face body of the `for face in faces` loop (lines 84-107), in
source order: drowsiness alert, unconditional blink log, looking-away,
head-down and talking alerts. -/
def processFace (f : Face) (now : Int) (s : AppState) : AppState × List Call :=
  let r1 := if f.drowsy then
      let d := laPure f.faceId ("Drowsiness") now s
      (d.state, d.calls)
    else (s, ([] : List Call))
  let c2 := if f.blinking then [Call.logEvent f.faceId ("Blinking")] else []
  let r3 := if f.lookingAway then
      let d := laPure f.faceId ("Looking Away") now r1.1
      (d.state, d.calls)
    else (r1.1, ([] : List Call))
  let r4 := if f.headDown then
      let d := laPure f.faceId ("Head Down") now r3.1
      (d.state, d.calls)
    else (r3.1, ([] : List Call))
  let r5 := if f.talking then
      let d := laPure f.faceId ("Talking") now r4.1
      (d.state, d.calls)
    else (r4.1, ([] : List Call))
  (r5.1, r1.2 ++ c2 ++ r3.2 ++ r4.2 ++ r5.2)

/-- All faces of one frame, in detector order. -/
def processFaces : List Face → Int → AppState → AppState × List Call
  | [], _, s => (s, [])
  | f :: rest, now, s =>
      let r := processFace f now s
      let r2 := processFaces rest now r.1
      (r2.1, r.2 ++ r2.2)

/-- Outcome of one loop iteration: the new state, the collaborator
calls made, whether this iteration reached the stop-signal check
(line 116), and whether it broke out of the loop. -/
structure StepResult where
  state : AppState
  calls : List Call
  checkedStop : Bool
  brk : Bool
  deriving DecidableEq, Repr

/-- One iteration of `while cap.isOpened()` (lines 64-117).  The
failed-read path (line 66) alerts `"Camera turned off"` and `continue`s;
the zero-face path updates the absence timer, possibly alerts
`"User left screen"`, and `continue`s; only the full-processing path
falls through to the `if st.session_state.get("stop", False): break`
check at the end of the body. -/
def frameStep (fd : FrameData) (s : AppState) : StepResult :=
  if fd.camOk = false then
    let r := laPure ("unknown") ("Camera turned off") fd.now s
    { state := r.state, calls := r.calls, checkedStop := false, brk := false }
  else if fd.faces.length = 0 then
    let ab := absUpdate s.absence true fd.now
    let s1 := { s with absence := ab }
    if absExceeded ab fd.now then
      let r := laPure ("unknown") ("User left screen") fd.now s1
      { state := r.state, calls := r.calls, checkedStop := false, brk := false }
    else
      { state := s1, calls := [], checkedStop := false, brk := false }
  else
    let s1 := { s with absence := absUpdate s.absence false fd.now }
    let r := processFaces fd.faces fd.now s1
    { state := r.1, calls := r.2, checkedStop := true, brk := fd.stop }

/-- Outcome of a whole run of `monitor_stream`: final state, calls in
order, and whether `cap.release()` (line 119) ran. -/
structure RunResult where
  state : AppState
  calls : List Call
  released : Bool
  deriving DecidableEq, Repr

/-- The loop, driven by the finite sequence of frames the capture
yields before `cap.isOpened()` turns false.  Both ways out of the loop
— the `break` and the condition turning false — fall through to
`cap.release()`. -/
def monitorRun : List FrameData → AppState → RunResult
  | [], s => { state := s, calls := [], released := true }
  | fd :: rest, s =>
      let r := frameStep fd s
      if r.brk then { state := r.state, calls := r.calls, released := true }
      else
        let r2 := monitorRun rest r.state
        { state := r2.state, calls := r.calls ++ r2.calls, released := r2.released }

/-- The session state at the start of a monitoring session: empty
throttle map, empty ledger, subject not marked absent. -/
def initState : AppState :=
  { last_alert_time := [], logs := [],
    absence := { is_absent := false, absent_since := none } }

/-- A face whose only positive verdict is the blink classifier. -/
def blinkFace (fid : String) : Face :=
  { faceId := fid, drowsy := false, blinking := true,
    lookingAway := false, headDown := false, talking := false }

/-- Decides whether a call is the unconditional blink log for `fid`. -/
def isBlinkLog (fid : String) (c : Call) : Bool :=
  decide (c = Call.logEvent fid ("Blinking"))

/-- A camera-off frame at instant `t` (failed read or liveness probe
false). -/
def camOffFrame (t : Int) : FrameData :=
  { camOk := false, faces := [], now := t, stop := false }

/-- A frame whose single face only blinks. -/
def blinkFrame (fid : String) (t : Int) : FrameData :=
  { camOk := true, faces := [blinkFace fid], now := t, stop := false }

/-! ### Throttle lemmas -/

theorem lookupTime_setTime_self (m : List (String × Int)) (k : String) (v : Int) :
    lookupTime (setTime m k v) k = some v := by
  induction m with
  | nil => simp [setTime, lookupTime]
  | cons hd tl ih =>
      obtain ⟨k1, v1⟩ := hd
      by_cases h : k1 = k
      · simp [setTime, h, lookupTime]
      · simp [setTime, h, lookupTime, ih]

theorem lookupTime_setTime_ne (m : List (String × Int)) (k k2 : String) (v : Int)
    (h : k2 ≠ k) : lookupTime (setTime m k v) k2 = lookupTime m k2 := by
  induction m with
  | nil => simp [setTime, lookupTime, Ne.symm h]
  | cons hd tl ih =>
      obtain ⟨k1, v1⟩ := hd
      by_cases h1 : k1 = k
      · subst h1
        simp [setTime, lookupTime, Ne.symm h]
      · simp [setTime, h1, lookupTime, ih]

theorem la_suppressed (w l n : Bool) (fid ev : String) (now : Int) (s : AppState)
    (h : now - (lookupTime s.last_alert_time ev).getD 0 < ALERT_INTERVAL) :
    log_and_alert w l n fid ev now s =
      { state := s, admitted := false, calls := [], raised := false } := by
  simp [log_and_alert, not_le.mpr h]

theorem la_admits (w l n : Bool) (fid ev : String) (now : Int) (s : AppState)
    (h : ALERT_INTERVAL ≤ now - (lookupTime s.last_alert_time ev).getD 0) :
    (log_and_alert w l n fid ev now s).admitted = true := by
  simp [log_and_alert, h]
  split_ifs <;> rfl

theorem laPure_admit_eq (fid ev : String) (now : Int) (s : AppState)
    (h : ALERT_INTERVAL ≤ now - (lookupTime s.last_alert_time ev).getD 0) :
    laPure fid ev now s =
      { state :=
          { s with
            logs := s.logs ++ [{ faceId := fid, event := ev, time := now }],
            last_alert_time := setTime s.last_alert_time ev now },
        admitted := true,
        calls := [Call.issueWarning ev, Call.logEvent fid ev, Call.notifyTutor fid],
        raised := false } := by
  simp [laPure, log_and_alert, h]

theorem la_admitted_cond (w l n : Bool) (fid ev : String) (now : Int) (s : AppState)
    (h : (log_and_alert w l n fid ev now s).admitted = true) :
    ALERT_INTERVAL ≤ now - (lookupTime s.last_alert_time ev).getD 0 := by
  by_contra hc
  rw [la_suppressed w l n fid ev now s (not_le.mp hc)] at h
  simp at h

theorem la_notify_raise_state (w l : Bool) (fid ev : String) (now : Int) (s : AppState) :
    (log_and_alert w l false fid ev now s).state = s := by
  simp only [log_and_alert]
  split_ifs <;> rfl

theorem la_not_admitted (w l n : Bool) (fid ev : String) (now : Int) (s : AppState)
    (h : now - (lookupTime s.last_alert_time ev).getD 0 < ALERT_INTERVAL) :
    (log_and_alert w l n fid ev now s).admitted = false := by
  rw [la_suppressed w l n fid ev now s h]

theorem after_admit_within_window_suppressed (A B E : String) (t t2 : Int)
    (s : AppState)
    (hc : ALERT_INTERVAL ≤ t - (lookupTime s.last_alert_time E).getD 0)
    (h2 : t2 - t < ALERT_INTERVAL) :
    (laPure B E t2 (laPure A E t s).state).admitted = false := by
  have hst := laPure_admit_eq A E t s hc
  simp only [laPure] at hst ⊢
  rw [hst]
  have hlt : t2 - (lookupTime (setTime s.last_alert_time E t) E).getD 0
      < ALERT_INTERVAL := by
    rw [lookupTime_setTime_self]
    simpa using h2
  exact la_not_admitted true true true B E t2 _ hlt

theorem after_admit_window_elapsed_admitted (A B E : String) (t t2 : Int)
    (s : AppState)
    (hc : ALERT_INTERVAL ≤ t - (lookupTime s.last_alert_time E).getD 0)
    (h2 : ALERT_INTERVAL ≤ t2 - t) :
    (laPure B E t2 (laPure A E t s).state).admitted = true := by
  have hst := laPure_admit_eq A E t s hc
  simp only [laPure] at hst ⊢
  rw [hst]
  have hge : ALERT_INTERVAL ≤ t2 - (lookupTime (setTime s.last_alert_time E t) E).getD 0 := by
    rw [lookupTime_setTime_self]
    simpa using h2
  exact la_admits true true true B E t2 _ hge

/-! ### Claims about the alert throttle -/

/-- Claim C1 counterexample: the stored map is keyed by the event string
alone, so an admitted alert for subject `a` with kind `Drowsiness` at
`t = 100` makes the attempt of the distinct subject `b` with the same
kind at `t = 105` (within the window) suppressed, though from the fresh
state that same attempt would have been admitted. -/
theorem throttle_cross_subject_cex :
    (laPure ("b") ("Drowsiness") 105 initState).admitted = true ∧
    (laPure ("b") ("Drowsiness") 105
        (laPure ("a") ("Drowsiness") 100 initState).state).admitted = false := by
  decide

/-- Claim C1 (amended): the throttle debounces per event kind only; an
admitted alert for any subject with kind `E` at `t` suppresses every
later attempt with kind `E` inside the window, whichever subject it
names. -/
theorem admitted_alert_suppresses_other_subjects (A B E : String) (t t2 : Int)
    (s : AppState) (h1 : (laPure A E t s).admitted = true)
    (h2 : t2 - t < ALERT_INTERVAL) :
    (laPure B E t2 (laPure A E t s).state).admitted = false := by
  simp only [laPure] at h1
  exact after_admit_within_window_suppressed A B E t t2 s
    (la_admitted_cond true true true A E t s h1) h2

/-- Witness for C1 (amended) at subjects `a`, `b`, kind `Drowsiness`,
instants 100 and 105. -/
theorem admitted_alert_suppresses_other_subjects_witness :
    (laPure ("b") ("Drowsiness") 105
        (laPure ("a") ("Drowsiness") 100 initState).state).admitted = false :=
  admitted_alert_suppresses_other_subjects ("a") ("b") ("Drowsiness") 100 105
    initState (by decide) (by decide)

/-- Claim C2 counterexample: from a fresh session state the stored
timestamp defaults to 0, so the calls at `t1 = 5 < t2 = 12` with
`t2 - t1 = 7 < W` yield Suppressed then Admitted — not Admitted then
Suppressed as claimed. -/
theorem single_key_first_call_suppressed_cex :
    ((5 : Int) < 12) ∧ ((12 : Int) - 5 < ALERT_INTERVAL) ∧
    (laPure ("a") ("Drowsiness") 5 initState).admitted = false ∧
    (laPure ("a") ("Drowsiness") 12
        (laPure ("a") ("Drowsiness") 5 initState).state).admitted = true := by
  decide

/-- Claim C2 (amended): provided the first call is admitted (the window
has elapsed over the stored timestamp at `t1`, e.g. a fresh key with
`t1 ≥ W`), the two calls at `t1 < t2` on one key yield Admitted then
Suppressed when `t2 - t1 < W`, and Admitted twice when `t2 - t1 ≥ W`,
with `W = ALERT_INTERVAL = 10` seconds. -/
theorem single_key_window_behavior (fid E : String) (t1 t2 : Int) (s : AppState)
    (h1 : ALERT_INTERVAL ≤ t1 - (lookupTime s.last_alert_time E).getD 0) :
    (laPure fid E t1 s).admitted = true ∧
    (t2 - t1 < ALERT_INTERVAL →
      (laPure fid E t2 (laPure fid E t1 s).state).admitted = false) ∧
    (ALERT_INTERVAL ≤ t2 - t1 →
      (laPure fid E t2 (laPure fid E t1 s).state).admitted = true) := by
  refine ⟨la_admits true true true fid E t1 s h1, ?_, ?_⟩
  · intro h2
    exact after_admit_within_window_suppressed fid fid E t1 t2 s h1 h2
  · intro h2
    exact after_admit_window_elapsed_admitted fid fid E t1 t2 s h1 h2

/-- Witness for C2 (amended): fresh key, admitted at `t1 = 100`,
suppressed at `t2 = 105`, admitted again at `t2 = 111`. -/
theorem single_key_window_behavior_witness :
    (laPure ("a") ("Drowsiness") 100 initState).admitted = true ∧
    (laPure ("a") ("Drowsiness") 105
        (laPure ("a") ("Drowsiness") 100 initState).state).admitted = false ∧
    (laPure ("a") ("Drowsiness") 111
        (laPure ("a") ("Drowsiness") 100 initState).state).admitted = true := by
  have ha := single_key_window_behavior ("a") ("Drowsiness") 100 105 initState (by decide)
  have hb := single_key_window_behavior ("a") ("Drowsiness") 100 111 initState (by decide)
  exact ⟨ha.1, ha.2.1 (by decide), hb.2.2 (by decide)⟩

/-- Claim C3 counterexample: with the throttle admitting at `t = 100`
and the notify sink raising, the warning and log calls are made, the
error propagates, and the ledger is left empty — the append is skipped
although Admitted was returned. -/
theorem notify_raise_skips_ledger_cex :
    (log_and_alert true true false ("a") ("Drowsiness") 100 initState).admitted = true ∧
    (log_and_alert true true false ("a") ("Drowsiness") 100 initState).raised = true ∧
    (log_and_alert true true false ("a") ("Drowsiness") 100 initState).state.logs = [] := by
  decide

/-- Claim C3 (amended): on an admitted alert the ledger entry is
appended whenever no collaborator raises (returned collaborator values
are ignored, so value-level failures cannot prevent it); but a
raised error from the notify sink propagates before the append, which
follows it in program order, so the entry is then NOT appended. -/
theorem ledger_append_after_notify (fid ev : String) (now : Int) (s : AppState)
    (h : (laPure fid ev now s).admitted = true) :
    (laPure fid ev now s).state.logs
        = s.logs ++ [{ faceId := fid, event := ev, time := now }] ∧
    (∀ w l : Bool, (log_and_alert w l false fid ev now s).state.logs = s.logs) := by
  simp only [laPure] at h ⊢
  have hc := la_admitted_cond true true true fid ev now s h
  have hst := laPure_admit_eq fid ev now s hc
  simp only [laPure] at hst
  constructor
  · rw [hst]
  · intro w l
    rw [la_notify_raise_state w l fid ev now s]

/-- Witness for C3 (amended) at `t = 100` from the fresh state. -/
theorem ledger_append_after_notify_witness :
    (laPure ("a") ("Drowsiness") 100 initState).state.logs
        = [{ faceId := ("a"), event := ("Drowsiness"), time := 100 }] ∧
    (log_and_alert true true false ("a") ("Drowsiness") 100 initState).state.logs = [] := by
  have h := ledger_append_after_notify ("a") ("Drowsiness") 100 initState (by decide)
  exact ⟨h.1, h.2 true true⟩

/-- Claim C4: a suppressed alert (window not yet elapsed for the stored
key) mutates nothing — the state (throttle map, ledger, absence record)
is returned untouched and no collaborator call (warning, log or notify)
is made, whatever the collaborators would have done. -/
theorem suppressed_alert_mutates_nothing (w l n : Bool) (fid ev : String)
    (now : Int) (s : AppState)
    (h : now - (lookupTime s.last_alert_time ev).getD 0 < ALERT_INTERVAL) :
    (log_and_alert w l n fid ev now s).state = s ∧
    (log_and_alert w l n fid ev now s).calls = [] ∧
    (log_and_alert w l n fid ev now s).admitted = false := by
  rw [la_suppressed w l n fid ev now s h]
  exact ⟨rfl, rfl, rfl⟩

/-- Witness for C4: second call 5 seconds after an admitted one. -/
theorem suppressed_alert_mutates_nothing_witness :
    (log_and_alert true true true ("a") ("Drowsiness") 105
        (laPure ("a") ("Drowsiness") 100 initState).state).state
      = (laPure ("a") ("Drowsiness") 100 initState).state ∧
    (log_and_alert true true true ("a") ("Drowsiness") 105
        (laPure ("a") ("Drowsiness") 100 initState).state).calls = [] ∧
    (log_and_alert true true true ("a") ("Drowsiness") 105
        (laPure ("a") ("Drowsiness") 100 initState).state).admitted = false :=
  suppressed_alert_mutates_nothing true true true ("a") ("Drowsiness") 105
    (laPure ("a") ("Drowsiness") 100 initState).state (by decide)

/-- Claim C6 counterexample: a key absent from the map is read as `0`
via `.get(event, 0)`, not as negative infinity: at `now = 5 < W` the
very first call for the fresh key `Drowsiness` is suppressed. -/
theorem fresh_key_small_clock_cex :
    lookupTime initState.last_alert_time ("Drowsiness") = none ∧
    (laPure ("a") ("Drowsiness") 5 initState).admitted = false := by
  decide

/-- Claim C6 (amended): a key with no stored timestamp is treated as
last-alert time `0` (the `.get(event, 0)` default), so the first call
for a fresh key is admitted exactly when `now ≥ W` — not at every
possible current time. -/
theorem fresh_key_defaults_to_zero (fid ev : String) (now : Int) (s : AppState)
    (h : lookupTime s.last_alert_time ev = none) :
    ((laPure fid ev now s).admitted = true ↔ ALERT_INTERVAL ≤ now) := by
  simp only [laPure]
  constructor
  · intro ha
    have hc := la_admitted_cond true true true fid ev now s ha
    rw [h] at hc
    simpa using hc
  · intro hn
    refine la_admits true true true fid ev now s ?_
    rw [h]
    simpa using hn

/-- Witness for C6 (amended): the fresh key is admitted at `now = 100`. -/
theorem fresh_key_defaults_to_zero_witness :
    (laPure ("a") ("Drowsiness") 100 initState).admitted = true :=
  (fresh_key_defaults_to_zero ("a") ("Drowsiness") 100 initState (by decide)).mpr
    (by decide)

/-! ### Blink path lemmas -/

theorem laPure_calls_no_blink_log (fid fid2 ev : String) (now : Int) (s : AppState)
    (h : ev ≠ ("Blinking")) :
    ((laPure fid2 ev now s).calls.countP (isBlinkLog fid)) = 0 := by
  simp only [laPure, log_and_alert]
  split_ifs <;> simp [isBlinkLog, h]

theorem processFace_blink_count (f : Face) (now : Int) (s : AppState) :
    ((processFace f now s).2.countP (isBlinkLog f.faceId))
      = if f.blinking then 1 else 0 := by
  obtain ⟨fid, d, b, la, hd, tk⟩ := f
  simp only [processFace]
  cases d <;> cases b <;> cases la <;> cases hd <;> cases tk <;>
    simp [List.countP_append, laPure_calls_no_blink_log, isBlinkLog]

theorem frameStep_blink_record (fid : String) (t : Int) (s : AppState) :
    frameStep { camOk := true, faces := [blinkFace fid], now := t, stop := false } s =
      { state := { s with absence := { is_absent := false, absent_since := none } },
        calls := [Call.logEvent fid ("Blinking")],
        checkedStop := true, brk := false } := rfl

theorem monitorRun_blink_frames (fid : String) (frames : List FrameData) (s0 : AppState)
    (hframes : ∀ fd ∈ frames,
      fd.camOk = true ∧ fd.stop = false ∧ fd.faces = [blinkFace fid]) :
    (monitorRun frames s0).state.logs = s0.logs ∧
    (monitorRun frames s0).state.last_alert_time = s0.last_alert_time ∧
    (monitorRun frames s0).calls
      = List.replicate frames.length (Call.logEvent fid ("Blinking")) := by
  revert hframes
  induction frames generalizing s0 with
  | nil => intro _; simp [monitorRun]
  | cons fd rest ih =>
      intro hframes
      obtain ⟨c, fs, n, st⟩ := fd
      obtain ⟨hcam, hstop, hfaces⟩ := hframes _ (List.mem_cons_self _ _)
      simp only at hcam hstop hfaces
      subst hcam hstop hfaces
      have hrest := fun x hx => hframes x (List.mem_cons_of_mem _ hx)
      obtain ⟨ih1, ih2, ih3⟩ :=
        ih { s0 with absence := { is_absent := false, absent_since := none } } hrest
      simp [monitorRun, frameStep_blink_record, ih1, ih2, ih3, List.replicate_succ]

/-- Claim C5: blinking bypasses throttle and dispatch — the per-face
body logs exactly one blink event when the blink classifier is true
(and none otherwise), and a run of N frames whose single face only
blinks produces exactly N `log_event` calls, no warning or notify call,
no ledger entry and no throttle-map change. -/
theorem blinking_logged_unthrottled (f : Face) (now : Int) (s : AppState)
    (frames : List FrameData) (fid : String) (s0 : AppState)
    (hframes : ∀ fd ∈ frames,
      fd.camOk = true ∧ fd.stop = false ∧ fd.faces = [blinkFace fid]) :
    ((processFace f now s).2.countP (isBlinkLog f.faceId)
        = if f.blinking then 1 else 0) ∧
    (monitorRun frames s0).state.logs = s0.logs ∧
    (monitorRun frames s0).state.last_alert_time = s0.last_alert_time ∧
    (monitorRun frames s0).calls
      = List.replicate frames.length (Call.logEvent fid ("Blinking")) := by
  obtain ⟨h1, h2, h3⟩ := monitorRun_blink_frames fid frames s0 hframes
  exact ⟨processFace_blink_count f now s, h1, h2, h3⟩

/-- Witness for C5: three blink-only frames yield three log calls, an
empty ledger and an empty throttle map. -/
theorem blinking_logged_unthrottled_witness :
    ((processFace (blinkFace ("f1")) 0 initState).2.countP (isBlinkLog ("f1")) = 1) ∧
    (monitorRun [blinkFrame ("f1") 0, blinkFrame ("f1") 1, blinkFrame ("f1") 2]
        initState).state.logs = [] ∧
    (monitorRun [blinkFrame ("f1") 0, blinkFrame ("f1") 1, blinkFrame ("f1") 2]
        initState).state.last_alert_time = [] ∧
    (monitorRun [blinkFrame ("f1") 0, blinkFrame ("f1") 1, blinkFrame ("f1") 2]
        initState).calls = List.replicate 3 (Call.logEvent ("f1") ("Blinking")) := by
  have h := blinking_logged_unthrottled (blinkFace ("f1")) 0 initState
    [blinkFrame ("f1") 0, blinkFrame ("f1") 1, blinkFrame ("f1") 2] ("f1") initState
    (by decide)
  exact ⟨h.1, h.2.1, h.2.2.1, h.2.2.2⟩

/-! ### Frame loop lemmas -/

theorem monitorRun_released (frames : List FrameData) (s : AppState) :
    (monitorRun frames s).released = true := by
  induction frames generalizing s with
  | nil => rfl
  | cons fd rest ih =>
      simp only [monitorRun]
      split
      · rfl
      · simp [ih]

/-- Claim C7 counterexample: a camera-off iteration `continue`s before
the stop check — even with the stop signal set, the iteration neither
reaches the check (line 116) nor breaks. -/
theorem camera_off_skips_stop_check_cex :
    (frameStep { camOk := false, faces := [], now := 0, stop := true }
        initState).checkedStop = false ∧
    (frameStep { camOk := false, faces := [], now := 0, stop := true }
        initState).brk = false := by
  decide

/-- Claim C7 (amended): the stop signal is checked only on iterations
that read a live frame AND detected at least one face; the failed-read
path and the zero-face path `continue` before the check.  The capture
handle is released on both normal ways out of the loop (the `break`
after a stop check, and `cap.isOpened()` turning false). -/
theorem stop_checked_only_after_full_processing (fd : FrameData) (s : AppState)
    (frames : List FrameData) (s0 : AppState) :
    (fd.camOk = false →
      (frameStep fd s).checkedStop = false ∧ (frameStep fd s).brk = false) ∧
    (fd.camOk = true → fd.faces = [] →
      (frameStep fd s).checkedStop = false ∧ (frameStep fd s).brk = false) ∧
    (fd.camOk = true → fd.faces ≠ [] →
      (frameStep fd s).checkedStop = true ∧ (frameStep fd s).brk = fd.stop) ∧
    (monitorRun frames s0).released = true := by
  refine ⟨?_, ?_, ?_, monitorRun_released frames s0⟩
  · intro h
    simp [frameStep, h]
  · intro h1 h2
    simp only [frameStep, h1, h2]
    split_ifs <;> simp_all
  · intro h1 h2
    have hlen : ¬ fd.faces.length = 0 := by
      simpa [List.length_eq_zero] using h2
    simp [frameStep, h1, hlen]

/-- Witness for C7 (amended): one instance of each iteration path and a
run that releases the capture. -/
theorem stop_checked_only_after_full_processing_witness :
    (frameStep { camOk := false, faces := [], now := 0, stop := false }
        initState).checkedStop = false ∧
    (frameStep { camOk := true, faces := [], now := 0, stop := false }
        initState).checkedStop = false ∧
    (frameStep { camOk := true, faces := [blinkFace ("f1")], now := 0, stop := true }
        initState).checkedStop = true ∧
    (monitorRun [blinkFrame ("f1") 0] initState).released = true := by
  have h1 := stop_checked_only_after_full_processing
    { camOk := false, faces := [], now := 0, stop := false } initState
    [blinkFrame ("f1") 0] initState
  have h2 := stop_checked_only_after_full_processing
    { camOk := true, faces := [], now := 0, stop := false } initState
    [blinkFrame ("f1") 0] initState
  have h3 := stop_checked_only_after_full_processing
    { camOk := true, faces := [blinkFace ("f1")], now := 0, stop := true } initState
    [blinkFrame ("f1") 0] initState
  exact ⟨(h1.1 rfl).1, (h2.2.1 rfl rfl).1, (h3.2.2.1 rfl (by decide)).1, h1.2.2.2⟩

/-! ### Camera-off path lemmas -/

theorem frameStep_camera_off (fd : FrameData) (s : AppState) (h : fd.camOk = false) :
    (frameStep fd s).state.absence = s.absence ∧
    (∀ e, e ≠ ("Camera turned off") →
      lookupTime (frameStep fd s).state.last_alert_time e
        = lookupTime s.last_alert_time e) ∧
    ((frameStep fd s).state.logs = s.logs ∨
      (frameStep fd s).state.logs = s.logs ++
        [{ faceId := ("unknown"), event := ("Camera turned off"), time := fd.now }]) ∧
    (frameStep fd s).brk = false := by
  simp only [frameStep, h]
  by_cases hc : ALERT_INTERVAL ≤
      fd.now - (lookupTime s.last_alert_time ("Camera turned off")).getD 0
  · have hst := laPure_admit_eq ("unknown") ("Camera turned off") fd.now s hc
    rw [hst]
    refine ⟨rfl, ?_, Or.inr rfl, rfl⟩
    intro e he
    exact lookupTime_setTime_ne s.last_alert_time ("Camera turned off") e fd.now he
  · have hst := la_suppressed true true true ("unknown") ("Camera turned off")
      fd.now s (not_le.mp hc)
    simp only [laPure]
    rw [hst]
    exact ⟨rfl, fun e he => rfl, Or.inl rfl, rfl⟩

theorem monitorRun_camera_off_absence (frames : List FrameData) (s0 : AppState)
    (hall : ∀ x ∈ frames, x.camOk = false) :
    (monitorRun frames s0).state.absence = s0.absence := by
  revert hall
  induction frames generalizing s0 with
  | nil => intro _; rfl
  | cons fd rest ih =>
      intro hall
      have hfd := hall fd (List.mem_cons_self _ _)
      have hstep := frameStep_camera_off fd s0 hfd
      simp only [monitorRun, hstep.2.2.2, if_neg Bool.false_ne_true]
      rw [ih (frameStep fd s0).state (fun x hx => hall x (List.mem_cons_of_mem _ hx))]
      exact hstep.1

/-- Claim C10: a failed/not-live frame read never touches the absence
record — `absence_timer.update` is not called on that path, so the
absence state carries over unchanged across any run of camera-off
frames; the only state the path can change is the throttle entry for
the `Camera turned off` key and, on admission, the ledger. -/
theorem camera_off_leaves_absence_untouched (fd : FrameData) (s : AppState)
    (frames : List FrameData) (s0 : AppState)
    (h : fd.camOk = false) (hall : ∀ x ∈ frames, x.camOk = false) :
    (frameStep fd s).state.absence = s.absence ∧
    (∀ e, e ≠ ("Camera turned off") →
      lookupTime (frameStep fd s).state.last_alert_time e
        = lookupTime s.last_alert_time e) ∧
    ((frameStep fd s).state.logs = s.logs ∨
      (frameStep fd s).state.logs = s.logs ++
        [{ faceId := ("unknown"), event := ("Camera turned off"), time := fd.now }]) ∧
    (monitorRun frames s0).state.absence = s0.absence := by
  obtain ⟨h1, h2, h3, _⟩ := frameStep_camera_off fd s h
  exact ⟨h1, h2, h3, monitorRun_camera_off_absence frames s0 hall⟩

/-- Witness for C10: two camera-off frames from the fresh state;
absence record untouched, `Drowsiness` throttle entry untouched. -/
theorem camera_off_leaves_absence_untouched_witness :
    (frameStep (camOffFrame 100) initState).state.absence = initState.absence ∧
    lookupTime (frameStep (camOffFrame 100) initState).state.last_alert_time
        ("Drowsiness") = lookupTime initState.last_alert_time ("Drowsiness") ∧
    (monitorRun [camOffFrame 100, camOffFrame 200] initState).state.absence
      = initState.absence := by
  have h := camera_off_leaves_absence_untouched (camOffFrame 100) initState
    [camOffFrame 100, camOffFrame 200] initState rfl (by decide)
  exact ⟨h.1, h.2.1 ("Drowsiness") (by decide), h.2.2.2⟩

/-! ### Identity resolver lemmas -/

theorem flatMap_pairs_flatMap (l : List (Int × Int)) (g : Int → List Nat) :
    (l.flatMap fun p => [p.1, p.2]).flatMap g
      = l.flatMap (fun p => g p.1 ++ g p.2) := by
  induction l with
  | nil => rfl
  | cons p rest ih =>
      simp [List.flatMap_cons, List.flatMap_append, ih]

theorem foldlM_bytes_ok (flat : List Int) (acc : List Nat)
    (h : ∀ x ∈ flat, -32768 ≤ x ∧ x < 32768) :
    (flat.foldlM (fun acc num => do
        let b ← int_to_bytes2 num
        pure (acc ++ b)) acc : Except PyError (List Nat))
      = Except.ok (acc ++ flat.flatMap
          (fun n => [(n % 65536).toNat / 256, (n % 65536).toNat % 256])) := by
  induction flat generalizing acc with
  | nil =>
      simp only [List.foldlM_nil, List.flatMap_nil, List.append_nil]
      rfl
  | cons x xs ih =>
      have hx := h x (List.mem_cons_self _ _)
      have hxs := fun y hy => h y (List.mem_cons_of_mem _ hy)
      rw [List.foldlM_cons, show int_to_bytes2 x
          = Except.ok [(x % 65536).toNat / 256, (x % 65536).toNat % 256] from by
        simp [int_to_bytes2, hx.1, hx.2]]
      exact (ih (acc ++ [(x % 65536).toNat / 256, (x % 65536).toNat % 256]) hxs).trans
        (by simp [List.flatMap_cons, List.append_assoc])

theorem get_face_id_eq (l : List (Int × Int)) (h : ∀ p ∈ l, inCoordRange p) :
    get_face_id l = Except.ok (md5hex (serializeSpec l)) := by
  have hflat : ∀ x ∈ l.flatMap (fun p => [p.1, p.2]), -32768 ≤ x ∧ x < 32768 := by
    intro x hx
    obtain ⟨p, hp, hxp⟩ := List.mem_flatMap.mp hx
    obtain ⟨h1, h2, h3, h4⟩ := h p hp
    simp only [List.mem_cons, List.not_mem_nil, or_false] at hxp
    rcases hxp with rfl | rfl
    · exact ⟨h1, h2⟩
    · exact ⟨h3, h4⟩
  simp only [get_face_id]
  rw [foldlM_bytes_ok (l.flatMap (fun p => [p.1, p.2])) [] hflat]
  simp only [List.nil_append, serializeSpec]
  rw [flatMap_pairs_flatMap]
  rfl

theorem md5hex_length (msg : List Nat) : (md5hex msg).length = 32 := by
  rcases hm : md5 msg with ⟨a, b, c, d⟩
  simp [md5hex, hm, digestBytes, wordBytesLE, byteHex, String.length]

set_option maxRecDepth 10000 in
/-- Claim C8 counterexample: the empty landmark sequence is not
rejected — `get_face_id` hashes the empty byte buffer and returns the
standard MD5 digest of the empty message as a SubjectId. -/
theorem empty_landmarks_hashed_cex :
    get_face_id [] = Except.ok ("d41d8cd98f00b204e9800998ecf8427e") := rfl

/-- Claim C8 (amended): `get_face_id` performs no length validation at
all: every landmark sequence whose coordinates fit the signed 16-bit
range — including the empty sequence and sequences shorter than the
68-landmark model output — is accepted and hashed into a SubjectId;
the only error path is a coordinate overflowing
`to_bytes(2, signed=True)`. -/
theorem resolver_accepts_short_sequences (l : List (Int × Int))
    (h : ∀ p ∈ l, inCoordRange p) :
    (∃ d, get_face_id l = Except.ok d) ∧ get_face_id [] = Except.ok (md5hex []) :=
  ⟨⟨md5hex (serializeSpec l), get_face_id_eq l h⟩, rfl⟩

/-- Witness for C8 (amended): a one-landmark sequence (far shorter than
68) is accepted. -/
theorem resolver_accepts_short_sequences_witness :
    (∃ d, get_face_id [(1, 2)] = Except.ok d) ∧
    get_face_id [] = Except.ok (md5hex []) :=
  resolver_accepts_short_sequences [(1, 2)] (by decide)

/-- Claim C9: over well-formed landmark sequences (coordinates within
the signed 16-bit range) the resolver is total and deterministic, and
its value is exactly the 128-bit MD5 digest (32 hexadecimal characters)
of the coordinates serialized as fixed-width 16-bit signed big-endian
values concatenated in landmark order. -/
theorem resolver_deterministic_digest (l l2 : List (Int × Int))
    (h : ∀ p ∈ l, inCoordRange p) :
    get_face_id l = Except.ok (md5hex (serializeSpec l)) ∧
    (md5hex (serializeSpec l)).length = 32 ∧
    (l = l2 → get_face_id l = get_face_id l2) :=
  ⟨get_face_id_eq l h, md5hex_length _, fun he => by rw [he]⟩

/-- Witness for C9 at the two-landmark sequence (1,2), (3,4). -/
theorem resolver_deterministic_digest_witness :
    get_face_id [(1, 2), (3, 4)]
        = Except.ok (md5hex (serializeSpec [(1, 2), (3, 4)])) ∧
    (md5hex (serializeSpec [(1, 2), (3, 4)])).length = 32 ∧
    get_face_id [(1, 2), (3, 4)] = get_face_id [(1, 2), (3, 4)] := by
  have h := resolver_deterministic_digest [(1, 2), (3, 4)] [(1, 2), (3, 4)]
    (by decide)
  exact ⟨h.1, h.2.1, h.2.2 rfl⟩
